import Mathlib

/-!
# Verification of the FuXi autoregressive forecast stepper (`inference.py`)

This file gives a shallow embedding of the core of `inference.py` — the
temporal feature encoder `time_encoding`, the output labeler `save_like`,
and the autoregressive loop of `run_inference` — and proves the spec's
claims about it.

Modelling conventions:
* Timestamps are integers counting hours since the Unix epoch
  (1970-01-01T00:00).  `pandas` calendar fields (`hour`, `day_of_year`)
  are recomputed from that hour count with the proleptic Gregorian
  calendar (the standard civil-from-days / days-from-civil algorithms).
* `numpy` float arrays are modelled over `ℚ` (scalar features, coordinate
  values) and `ℝ` (the sine/cosine embedding); float rounding is not
  modelled.
* The gridded (channel × lat × lon) content of one timestep is an opaque
  type parameter `S`; a model tensor of shape (batch, step, C, H, W) is
  `List (List S)` — the outer list is the batch axis, the inner list the
  step/history axis.  The external ONNX predictor and refiner (`short`,
  `interp`) are opaque functions of the window and the scalar-feature
  mapping.
* Python `assert` failures and `IndexError`s are modelled with
  `Except String`.
-/

/-! ## Calendar arithmetic (model of the `pandas` time fields) -/

/-- Days-from-civil (proleptic Gregorian): the number of days from
1970-01-01 to the date `y`-`m`-`d`. -/
def daysFromCivil (y m d : ℤ) : ℤ :=
  let y2 := y - (if m ≤ 2 then 1 else 0)
  let era := Int.fdiv y2 400
  let yoe := y2 - era * 400
  let mp := Int.emod (m + 9) 12
  let doy := Int.fdiv (153 * mp + 2) 5 + d - 1
  let doe := yoe * 365 + Int.fdiv yoe 4 - Int.fdiv yoe 100 + doy
  era * 146097 + doe - 719468

/-- Civil-from-days (proleptic Gregorian): the calendar year containing
the day that is `z` days after 1970-01-01. -/
def civilYearOfDays (z : ℤ) : ℤ :=
  let z2 := z + 719468
  let era := Int.fdiv z2 146097
  let doe := z2 - era * 146097
  let yoe :=
    Int.fdiv (doe - Int.fdiv doe 1460 + Int.fdiv doe 36524 - Int.fdiv doe 146096) 365
  let y := yoe + era * 400
  let doy := doe - (365 * yoe + Int.fdiv yoe 4 - Int.fdiv yoe 100)
  let mp := Int.fdiv (5 * doy + 2) 153
  let m := mp + (if mp < 10 then 3 else -9)
  if m ≤ 2 then y + 1 else y

/-- `pandas` `hour` field of a timestamp given in hours since the epoch:
the hour of day, in `0..23`. -/
def hourOf (t : ℤ) : ℤ := Int.emod t 24

/-- `pandas` `day_of_year` field of a timestamp given in hours since the
epoch: 1-based ordinal day within its calendar year (1..365 or 1..366 in
leap years). -/
def dayOfYear (t : ℤ) : ℤ :=
  let days := Int.fdiv t 24
  days - daysFromCivil (civilYearOfDays days) 1 1 + 1

/-- Modelled from the spec: the scalar day-of-year feature the spec says
is supplied to the predictor — `min(365, day_of_year)/365` (clipped at
365, divided by 365). -/
def spec_scalar_doy (t : ℤ) : ℚ := ((min 365 (dayOfYear t) : ℤ) : ℚ) / 365

/-- Modelled from the spec: the day-of-year phase fraction the spec says
enters the sine/cosine embedding — `day_of_year/366` (unclipped). -/
def spec_embedding_doy_frac (t : ℤ) : ℚ := ((dayOfYear t : ℤ) : ℚ) / 366

/-! ## `time_encoding` (lines 70–82) -/

/-- One step's time embedding: the row `tembs[i]` built by
`time_encoding`.  For offsets `o ∈ {i-1, i, i+1}` (in units of `freq`
hours) it takes the timestamp `init_time + o*freq`, forms the phase
fractions `day_of_year/366` and `hour/24`, and per offset concatenates
`[sin doy, sin hour, cos doy, cos hour]` (that is
`np.concatenate([np.sin(temb), np.cos(temb)], axis=-1)` on the (3, 2)
array, flattened row-major by `reshape(1, -1)`). -/
noncomputable def timeEncodingStep (t0 : ℤ) (i : ℕ) (freq : ℤ) : List ℝ :=
  (([(i : ℤ) - 1, (i : ℤ), (i : ℤ) + 1]).map (fun o =>
    let tm := t0 + o * freq
    let d : ℚ := ((dayOfYear tm : ℤ) : ℚ) / 366
    let h : ℚ := ((hourOf tm : ℤ) : ℚ) / 24
    [Real.sin (d : ℝ), Real.sin (h : ℝ), Real.cos (d : ℝ), Real.cos (h : ℝ)])).flatten

/-- `time_encoding(init_time, total_step, freq)`: the stack of the
per-step embeddings for `i in range(total_step)`. -/
noncomputable def time_encoding (t0 : ℤ) (totalStep : ℕ) (freq : ℤ) : List (List ℝ) :=
  (List.range totalStep).map (fun i => timeEncodingStep t0 i freq)

/-! ## Data model: input window, scalar features, records -/

/-- The scalar-feature mapping built for the ONNX inputs other than
`input` (the `inputs` dict of `run_inference` minus the window). -/
abbrev Scalars : Type := List (String × ℚ)

/-- A model of a (batch, step, C, H, W) `numpy` array: outer list = batch
axis, inner list = step/history axis, `S` = one (C, H, W) grid. -/
abbrev Tensor (S : Type) : Type := List (List S)

/-- The input `xarray.DataArray`: its `time` coordinate (hours since the
epoch), `channel`, `lat`, `lon` coordinates, and the data — one grid `S`
per held timestep, ordered oldest-to-newest. -/
structure DataArrayIn (S : Type) where
  times : List ℤ
  channel : List String
  lat : List ℚ
  lon : List ℚ
  values : List S
deriving DecidableEq

/-- The labeled forecast `DataArray` built by `save_like` for one step
(the ForecastRecord). -/
structure Record (S : Type) where
  time : List ℤ
  leadTimes : List ℤ
  channel : List String
  lat : List ℚ
  lon : List ℚ
  data : Tensor S
deriving DecidableEq

/-- `output.shape[1]`: the size of the step axis (`numpy` arrays are
rectangular, so the first batch row's length is the shape). -/
def shape1 {S : Type} (t : Tensor S) : ℕ := (t.head?.map List.length).getD 0

/-- `save_like(output, input, lead_time)` (lines 46–67): label the raw
step output with `time=[input.time[-1]]`,
`lead_time = np.arange(lead_time - output.shape[1], lead_time) + 1`, and
the `channel`/`lat`/`lon` coordinates copied unchanged from the input.
(`input.time.values[-1]` is modelled as the final-element singleton;
`run_inference` guarantees at least two timestamps.) -/
def save_like {S : Type} (output : Tensor S) (inp : DataArrayIn S) (leadTime : ℤ) : Record S :=
  { time := inp.times.drop (inp.times.length - 1)
    leadTimes :=
      (List.range (shape1 output)).map (fun j : ℕ => leadTime - (shape1 output : ℤ) + 1 + (j : ℤ))
    channel := inp.channel
    lat := inp.lat
    lon := inp.lon
    data := output }

/-- `new_input[:, -1:]`: keep only the trailing slice of the step axis. -/
def lastSlice {S : Type} (t : Tensor S) : Tensor S :=
  t.map (fun r => r.drop (r.length - 1))

/-- `x[:, -2:-1]`: the penultimate (second-to-last) slice of the step
axis, as a singleton along that axis. -/
def penultimateSlice {S : Type} (t : Tensor S) : Tensor S :=
  t.map (fun r => (r.drop (r.length - 2)).take 1)

/-- The scalar features of one step (lines 133–145): for each name the
ONNX model declares, the value `run_inference` supplies — `step` as a
float, `hour = valid_time.hour/24`, and
`doy = min(365, valid_time.day_of_year)/365`. -/
def mkScalars (names : List String) (step : ℕ) (validTime : ℤ) : Scalars :=
  (if "step" ∈ names then [("step", (step : ℚ))] else []) ++
  (if "hour" ∈ names then [("hour", ((hourOf validTime : ℤ) : ℚ) / 24)] else []) ++
  (if "doy" ∈ names then [("doy", ((min 365 (dayOfYear validTime) : ℤ) : ℚ) / 365)] else [])

/-! ## The autoregressive loop of `run_inference` (lines 117–161) -/

/-- One iteration of the loop, as recorded by the trace: the window
(`batch`) passed to the predictor this step, the step's `lead_time` and
`valid_time`, and the record handed to `save_like`. -/
structure StepTrace (S : Type) where
  window : Tensor S
  leadTime : ℤ
  validTime : ℤ
  record : Record S
deriving DecidableEq

/-- The loop body of `run_inference`, iterated `fuel` times starting at
step counter `step` with rolling window `batch` (lines 129–158):
`lead_time = (step+1)*6`; `valid_time = init_time + step*6 h`; scalar
features built by `mkScalars`; `new_input = short(batch, scalars)`;
the emitted output is `new_input[:, -1:]`, or `interp(new_input,
scalars)` when `--use_interp` is set; `save_like` labels it; and the
next window is `batch = new_input` (the raw predictor output). -/
def stepTraces {S : Type} (P I : Tensor S → Scalars → Tensor S) (ui : Bool)
    (names : List String) (inp : DataArrayIn S) (t0 : ℤ) :
    ℕ → ℕ → Tensor S → List (StepTrace S)
  | 0, _, _ => []
  | fuel + 1, step, batch =>
    let leadTime : ℤ := ((step : ℤ) + 1) * 6
    let validTime : ℤ := t0 + 6 * (step : ℤ)
    let scal := mkScalars names step validTime
    let newInput := P batch scal
    let output := if ui then I newInput scal else lastSlice newInput
    { window := batch, leadTime := leadTime, validTime := validTime
      record := save_like output inp leadTime } ::
      stepTraces P I ui names inp t0 fuel (step + 1) newInput

/-- `run_inference(models, input, total_step)`: read the two most recent
timestamps (`input.time.values[-2]`, `[-1]`; fewer than two is an
`IndexError`), assert they are exactly 6 hours apart (line 123), assert
`lat[0] == 90 and lat[-1] == -90` (line 124), then run the loop on the
initial window `batch = input.values[None]`. -/
def run_inference {S : Type} (P I : Tensor S → Scalars → Tensor S) (ui : Bool)
    (names : List String) (inp : DataArrayIn S) (totalStep : ℕ) :
    Except String (List (StepTrace S)) :=
  match inp.times.reverse with
  | initT :: histT :: _ =>
    if initT - histT = 6 then
      if inp.lat.head? = some 90 ∧ inp.lat.getLast? = some (-90) then
        Except.ok (stepTraces P I ui names inp initT totalStep 0 [inp.values])
      else Except.error "AssertionError: lat"
    else Except.error "AssertionError: interval"
  | _ => Except.error "IndexError: time"

/-- The raw autoregressive chain: `rawChain … (k+1)` is the raw (never
refined) predictor output of step `k`, seeded by the initial window —
exactly the `batch = new_input` feedback of line 158. -/
def rawChain {S : Type} (P : Tensor S → Scalars → Tensor S) (names : List String)
    (t0 : ℤ) (b0 : Tensor S) : ℕ → Tensor S
  | 0 => b0
  | k + 1 => P (rawChain P names t0 b0 k) (mkScalars names k (t0 + 6 * (k : ℤ)))

/-- Front-first presentation of the same chain, starting at step counter
`step` from window `b` (proof helper). -/
def chainFrom {S : Type} (P : Tensor S → Scalars → Tensor S) (names : List String)
    (t0 : ℤ) : ℕ → Tensor S → ℕ → Tensor S
  | _, b, 0 => b
  | step, b, k + 1 =>
    chainFrom P names t0 (step + 1) (P b (mkScalars names step (t0 + 6 * (step : ℤ)))) k

/-- `true` iff the run did not abort. -/
def okB {ε α : Type} : Except ε α → Bool
  | Except.ok _ => true
  | Except.error _ => false

/-- The latitude convention the spec demands: strictly monotonically
decreasing from `+90` down to `-90`. -/
def strictlyNorthSouth (l : List ℚ) : Prop :=
  List.Chain' (fun a b => b < a) l ∧ l.head? = some 90 ∧ l.getLast? = some (-90)


/-! ## Helper lemmas -/

lemma sin_bounds (x : ℝ) : -1 ≤ Real.sin x ∧ Real.sin x ≤ 1 :=
  ⟨Real.neg_one_le_sin x, Real.sin_le_one x⟩

lemma cos_bounds (x : ℝ) : -1 ≤ Real.cos x ∧ Real.cos x ≤ 1 :=
  ⟨Real.neg_one_le_cos x, Real.cos_le_one x⟩

lemma timeEncodingStep_len (t0 : ℤ) (i : ℕ) (freq : ℤ) :
    (timeEncodingStep t0 i freq).length = 12 := rfl

/-! ## C6 — component count and range of the time embedding -/

/-- C6 counterexample: the TimeEmbedding for `step_index = 0` (anchor
1970-01-01T00, 6-hour interval) does not have 18 components — the loop
makes 3 offsets × 2 phase fractions × 2 trig functions = 12. -/
theorem temb_not_eighteen_cex : (timeEncodingStep 0 0 6).length ≠ 18 := by decide

/-- C6 (amended): for every anchor time and every step index, the
TimeEmbedding produced by `time_encoding` has exactly 12 components
(3 offsets × 2 phase fractions × 2 trig functions), and every component
lies in `[-1, 1]`. -/
theorem temb_twelve_components_bounded (t0 : ℤ) (i : ℕ) (freq : ℤ) :
    (timeEncodingStep t0 i freq).length = 12 ∧
    (timeEncodingStep t0 i freq).Forall (fun x => -1 ≤ x ∧ x ≤ 1) := by
  refine ⟨timeEncodingStep_len t0 i freq, ?_⟩
  exact ⟨sin_bounds _, sin_bounds _, cos_bounds _, cos_bounds _,
    sin_bounds _, sin_bounds _, cos_bounds _, cos_bounds _,
    sin_bounds _, sin_bounds _, cos_bounds _, cos_bounds _⟩

/-! ## C7 — the temporal feature encoder is a pure function -/

/-- C7: `time_encoding` is deterministic: two calls with identical
`(anchor, total_step, interval)` arguments produce identical outputs.
In this embedding the encoder is a function of exactly these three
arguments, so it depends on no other state by construction. -/
theorem time_encoding_deterministic (t0 t0' : ℤ) (n n' : ℕ) (f f' : ℤ)
    (h1 : t0 = t0') (h2 : n = n') (h3 : f = f') :
    time_encoding t0 n f = time_encoding t0' n' f' := by
  subst h1; subst h2; subst h3; rfl

/-- Witness for C7 at the concrete input (anchor 2023-01-01T00 =
464592 h, 3 steps, 6-hour interval). -/
theorem time_encoding_deterministic_inst :
    (464592 : ℤ) = 464592 ∧ (3 : ℕ) = 3 ∧ (6 : ℤ) = 6 ∧
    time_encoding 464592 3 6 = time_encoding 464592 3 6 :=
  ⟨rfl, rfl, rfl, time_encoding_deterministic 464592 464592 3 3 6 6 rfl rfl rfl⟩

/-! ## C10 — the 365 vs 366 day-of-year asymmetry -/

/-- C10: the scalar `doy` feature supplied to the predictor is
`min(365, day_of_year)/365` (clipped, divided by 365), while each
day-of-year phase fraction inside the sine/cosine embedding is
`day_of_year/366` (unclipped, divided by 366): both literal constants
are preserved as given. -/
theorem doy_constants_asymmetry (names : List String) (step : ℕ) (t : ℤ)
    (t0 : ℤ) (i : ℕ) (freq : ℤ) (hdoy : "doy" ∈ names) :
    (mkScalars names step t).lookup "doy" = some (spec_scalar_doy t) ∧
    timeEncodingStep t0 i freq =
      (([(i : ℤ) - 1, (i : ℤ), (i : ℤ) + 1]).map (fun o =>
        let tm := t0 + o * freq
        [Real.sin ((spec_embedding_doy_frac tm : ℚ) : ℝ),
         Real.sin ((((hourOf tm : ℤ) : ℚ) / 24 : ℚ) : ℝ),
         Real.cos ((spec_embedding_doy_frac tm : ℚ) : ℝ),
         Real.cos ((((hourOf tm : ℤ) : ℚ) / 24 : ℚ) : ℝ)])).flatten := by
  constructor
  · unfold mkScalars
    split_ifs <;> rfl
  · rfl

/-- Witness for C10 at the concrete input `names = ["doy"]`,
anchor 1970-01-01T00, step 0, 6-hour interval. -/
theorem doy_constants_asymmetry_inst :
    "doy" ∈ ["doy"] ∧
    (mkScalars ["doy"] 0 0).lookup "doy" = some (spec_scalar_doy 0) ∧
    timeEncodingStep 0 0 6 =
      (([((0 : ℕ) : ℤ) - 1, ((0 : ℕ) : ℤ), ((0 : ℕ) : ℤ) + 1]).map (fun o =>
        let tm := (0 : ℤ) + o * 6
        [Real.sin ((spec_embedding_doy_frac tm : ℚ) : ℝ),
         Real.sin ((((hourOf tm : ℤ) : ℚ) / 24 : ℚ) : ℝ),
         Real.cos ((spec_embedding_doy_frac tm : ℚ) : ℝ),
         Real.cos ((((hourOf tm : ℤ) : ℚ) / 24 : ℚ) : ℝ)])).flatten :=
  ⟨by decide, doy_constants_asymmetry ["doy"] 0 0 0 0 6 (by decide)⟩

/-! ## Loop lemmas -/

section Loop

variable {S : Type} (P I : Tensor S → Scalars → Tensor S) (ui : Bool)
  (names : List String) (inp : DataArrayIn S) (t0 : ℤ)

lemma stepTraces_length : ∀ (fuel step : ℕ) (b : Tensor S),
    (stepTraces P I ui names inp t0 fuel step b).length = fuel := by
  intro fuel
  induction fuel with
  | zero => intro step b; rfl
  | succ n ih => intro step b; simp only [stepTraces, List.length_cons, ih]

lemma stepTraces_map_leadTime : ∀ (fuel step : ℕ) (b : Tensor S),
    (stepTraces P I ui names inp t0 fuel step b).map (fun s => s.leadTime)
      = (List.range fuel).map (fun k : ℕ => ((step : ℤ) + (k : ℤ) + 1) * 6) := by
  intro fuel
  induction fuel with
  | zero => intro step b; rfl
  | succ n ih =>
    intro step b
    rw [List.range_succ_eq_map]
    simp only [stepTraces, List.map_cons, List.map_map]
    refine congrArg₂ List.cons ?_ ?_
    · push_cast; ring
    · rw [ih]
      refine List.map_congr_left ?_
      intro a _
      simp only [Function.comp_apply]
      push_cast; ring

lemma stepTraces_map_validTime : ∀ (fuel step : ℕ) (b : Tensor S),
    (stepTraces P I ui names inp t0 fuel step b).map (fun s => s.validTime)
      = (List.range fuel).map (fun k : ℕ => t0 + 6 * ((step : ℤ) + (k : ℤ))) := by
  intro fuel
  induction fuel with
  | zero => intro step b; rfl
  | succ n ih =>
    intro step b
    rw [List.range_succ_eq_map]
    simp only [stepTraces, List.map_cons, List.map_map]
    refine congrArg₂ List.cons ?_ ?_
    · push_cast; ring
    · rw [ih]
      refine List.map_congr_left ?_
      intro a _
      simp only [Function.comp_apply]
      push_cast; ring

lemma stepTraces_map_channel : ∀ (fuel step : ℕ) (b : Tensor S),
    (stepTraces P I ui names inp t0 fuel step b).map (fun s => s.record.channel)
      = List.replicate fuel inp.channel := by
  intro fuel
  induction fuel with
  | zero => intro step b; rfl
  | succ n ih =>
    intro step b
    simp only [stepTraces, List.map_cons, List.replicate_succ]
    exact congrArg₂ List.cons rfl (ih _ _)

lemma stepTraces_map_lat : ∀ (fuel step : ℕ) (b : Tensor S),
    (stepTraces P I ui names inp t0 fuel step b).map (fun s => s.record.lat)
      = List.replicate fuel inp.lat := by
  intro fuel
  induction fuel with
  | zero => intro step b; rfl
  | succ n ih =>
    intro step b
    simp only [stepTraces, List.map_cons, List.replicate_succ]
    exact congrArg₂ List.cons rfl (ih _ _)

lemma stepTraces_map_lon : ∀ (fuel step : ℕ) (b : Tensor S),
    (stepTraces P I ui names inp t0 fuel step b).map (fun s => s.record.lon)
      = List.replicate fuel inp.lon := by
  intro fuel
  induction fuel with
  | zero => intro step b; rfl
  | succ n ih =>
    intro step b
    simp only [stepTraces, List.map_cons, List.replicate_succ]
    exact congrArg₂ List.cons rfl (ih _ _)

lemma chainFrom_out : ∀ (k step : ℕ) (b : Tensor S),
    chainFrom P names t0 step b (k + 1)
      = P (chainFrom P names t0 step b k)
          (mkScalars names (step + k) (t0 + 6 * ((step + k : ℕ) : ℤ))) := by
  intro k
  induction k with
  | zero =>
    intro step b
    simp only [Nat.add_zero]
    rfl
  | succ n ih =>
    intro step b
    have hd : chainFrom P names t0 step b (n + 1 + 1)
        = chainFrom P names t0 (step + 1)
            (P b (mkScalars names step (t0 + 6 * (step : ℤ)))) (n + 1) := rfl
    rw [hd, ih]
    have h1 : step + 1 + n = step + (n + 1) := by omega
    rw [h1]
    rfl

lemma chainFrom_zero_eq : ∀ (k : ℕ) (b : Tensor S),
    chainFrom P names t0 0 b k = rawChain P names t0 b k := by
  intro k
  induction k with
  | zero => intro b; rfl
  | succ n ih =>
    intro b
    rw [chainFrom_out, ih]
    simp only [Nat.zero_add]
    rfl

lemma stepTraces_map_window : ∀ (fuel step : ℕ) (b : Tensor S),
    (stepTraces P I ui names inp t0 fuel step b).map (fun s => s.window)
      = (List.range fuel).map (fun k => chainFrom P names t0 step b k) := by
  intro fuel
  induction fuel with
  | zero => intro step b; rfl
  | succ n ih =>
    intro step b
    rw [List.range_succ_eq_map]
    simp only [stepTraces, List.map_cons, List.map_map]
    refine congrArg₂ List.cons rfl ?_
    rw [ih]
    rfl

lemma stepTraces_map_data : ∀ (fuel step : ℕ) (b : Tensor S),
    (stepTraces P I false names inp t0 fuel step b).map (fun s => s.record.data)
      = (List.range fuel).map (fun k => lastSlice (chainFrom P names t0 step b (k + 1))) := by
  intro fuel
  induction fuel with
  | zero => intro step b; rfl
  | succ n ih =>
    intro step b
    rw [List.range_succ_eq_map]
    simp only [stepTraces, List.map_cons, List.map_map]
    refine congrArg₂ List.cons rfl ?_
    rw [ih]
    rfl

end Loop

/-! ## C1 — the fed-back window is always the raw predictor output -/

/-- C1: the sequence of rolling windows passed to the predictor is
exactly the raw autoregressive chain: the window of step `k+1` is
`rawChain … (k+1) = P (rawChain … k) scalars_k`, the raw, unrefined
predictor output of step `k` seeded from the initial window.  The
right-hand side mentions neither the refiner `I` nor the `use_interp`
flag `ui`, so the refined output never appears in any fed-back window —
it is used only for the emitted record. -/
theorem fedback_window_is_raw_chain {S : Type} (P I : Tensor S → Scalars → Tensor S)
    (ui : Bool) (names : List String) (inp : DataArrayIn S) (t0 : ℤ)
    (b0 : Tensor S) (fuel : ℕ) :
    (stepTraces P I ui names inp t0 fuel 0 b0).map (fun s => s.window)
      = (List.range fuel).map (rawChain P names t0 b0) := by
  rw [stepTraces_map_window]
  refine List.map_congr_left ?_
  intro a _
  exact chainFrom_zero_eq P names t0 a b0

/-! ## C2 — step count, lead times, valid times -/

/-- C2: for a valid input window (two most recent timestamps 6 hours
apart, latitude running 90 → −90) and any `total_step = N ≥ 0`,
`run_inference` performs exactly `N` iterations and emits exactly `N`
records, the `k`-th (0-based) having `lead_time = (k+1)*6` and
`valid_time = anchor + k*6` hours. -/
theorem run_inference_emits_n_records {S : Type}
    (P I : Tensor S → Scalars → Tensor S) (ui : Bool) (names : List String)
    (inp : DataArrayIn S) (N : ℕ) (i h : ℤ) (rest : List ℤ)
    (ht : inp.times.reverse = i :: h :: rest) (hd : i - h = 6)
    (hlat : inp.lat.head? = some 90 ∧ inp.lat.getLast? = some (-90)) :
    run_inference P I ui names inp N
        = Except.ok (stepTraces P I ui names inp i N 0 [inp.values]) ∧
    (stepTraces P I ui names inp i N 0 [inp.values]).length = N ∧
    (stepTraces P I ui names inp i N 0 [inp.values]).map (fun s => s.leadTime)
        = (List.range N).map (fun k : ℕ => ((k : ℤ) + 1) * 6) ∧
    (stepTraces P I ui names inp i N 0 [inp.values]).map (fun s => s.validTime)
        = (List.range N).map (fun k : ℕ => i + 6 * (k : ℤ)) := by
  have hrun : run_inference P I ui names inp N =
      if i - h = 6 then
        if inp.lat.head? = some 90 ∧ inp.lat.getLast? = some (-90) then
          Except.ok (stepTraces P I ui names inp i N 0 [inp.values])
        else Except.error "AssertionError: lat"
      else Except.error "AssertionError: interval" := by
    unfold run_inference
    rw [ht]
  refine ⟨?_, stepTraces_length P I ui names inp i N 0 [inp.values], ?_, ?_⟩
  · rw [hrun, if_pos hd, if_pos hlat]
  · rw [stepTraces_map_leadTime]
    refine List.map_congr_left ?_
    intro a _
    push_cast
    ring
  · rw [stepTraces_map_validTime]
    refine List.map_congr_left ?_
    intro a _
    push_cast
    ring

/-- Witness for C2 on the spec's end-to-end example: anchor
2023-01-01T00 (= 464592 h since the epoch), previous state 6 h earlier,
`total_step = 3`; lead times `[6, 12, 18]`, valid times anchor + 0/6/12 h
(2023-01-01T00/06/12). -/
theorem run_inference_emits_n_records_inst :
    (([464586, 464592] : List ℤ).reverse = 464592 :: 464586 :: []) ∧
    ((464592 : ℤ) - 464586 = 6) ∧
    ((([90, -90] : List ℚ).head? = some 90) ∧
      (([90, -90] : List ℚ).getLast? = some (-90))) ∧
    (run_inference (fun b _ => b) (fun b _ => b) false ["step", "hour", "doy"]
        (⟨[464586, 464592], ["t2m"], [90, -90], [0], [7, 8]⟩ : DataArrayIn ℕ) 3
      = Except.ok (stepTraces (fun b _ => b) (fun b _ => b) false ["step", "hour", "doy"]
          ⟨[464586, 464592], ["t2m"], [90, -90], [0], [7, 8]⟩ 464592 3 0 [[7, 8]])) ∧
    (stepTraces (fun b _ => b) (fun b _ => b) false ["step", "hour", "doy"]
        (⟨[464586, 464592], ["t2m"], [90, -90], [0], [7, 8]⟩ : DataArrayIn ℕ)
        464592 3 0 [[7, 8]]).length = 3 ∧
    ((stepTraces (fun b _ => b) (fun b _ => b) false ["step", "hour", "doy"]
        (⟨[464586, 464592], ["t2m"], [90, -90], [0], [7, 8]⟩ : DataArrayIn ℕ)
        464592 3 0 [[7, 8]]).map (fun s => s.leadTime)
      = (List.range 3).map (fun k : ℕ => ((k : ℤ) + 1) * 6)) ∧
    ((stepTraces (fun b _ => b) (fun b _ => b) false ["step", "hour", "doy"]
        (⟨[464586, 464592], ["t2m"], [90, -90], [0], [7, 8]⟩ : DataArrayIn ℕ)
        464592 3 0 [[7, 8]]).map (fun s => s.validTime)
      = (List.range 3).map (fun k : ℕ => 464592 + 6 * (k : ℤ))) :=
  ⟨by decide, by decide, ⟨by decide, by decide⟩,
    run_inference_emits_n_records (fun b _ => b) (fun b _ => b) false
      ["step", "hour", "doy"] ⟨[464586, 464592], ["t2m"], [90, -90], [0], [7, 8]⟩
      3 464592 464586 [] (by decide) (by decide) ⟨by decide, by decide⟩⟩

/-! ## C3 — the nominal forecast slice is the trailing one, not the penultimate -/

/-- C3 counterexample: with refinement disabled and a stub predictor
whose raw output has the two step-axis slices `[0, 1]`, the record
emitted at step 0 carries the trailing slice `[[1]]`
(`new_input[:, -1:]`), which differs from the penultimate slice `[[0]]`
(`[:, -2:-1]`) of the same raw output — so the claim "the forecast handed
to the labeler is the penultimate slice" is false on this input. -/
theorem nominal_slice_not_penultimate_cex :
    ((stepTraces (fun _ _ => [[0, 1]]) (fun _ _ => [[0, 1]]) false []
        (⟨[0, 6], ["c"], [90, -90], [0], [5, 5]⟩ : DataArrayIn ℕ) 6 1 0
        [[5, 5]]).map (fun s => s.record.data)) = [[[1]]] ∧
    penultimateSlice [[(0 : ℕ), 1]] = [[0]] ∧
    ([[(1 : ℕ)]] : Tensor ℕ) ≠ [[0]] := by
  refine ⟨by decide, by decide, by decide⟩

/-- C3 (amended): at every step, with refinement disabled, the nominal
one-interval-ahead forecast handed to `save_like` is the trailing slice
(`[:, -1:]`, the last element along the internal step axis) of the raw
predictor output of that step — not the penultimate slice. -/
theorem nominal_slice_is_trailing {S : Type} (P I : Tensor S → Scalars → Tensor S)
    (names : List String) (inp : DataArrayIn S) (t0 : ℤ) (b0 : Tensor S) (fuel : ℕ) :
    (stepTraces P I false names inp t0 fuel 0 b0).map (fun s => s.record.data)
      = (List.range fuel).map (fun k => lastSlice (rawChain P names t0 b0 (k + 1))) := by
  rw [stepTraces_map_data]
  refine List.map_congr_left ?_
  intro a _
  rw [chainFrom_zero_eq]

/-! ## C4 — only the latitude endpoints are checked, not monotonicity -/

/-- C4 counterexample: the latitude coordinate `[90, 0, 10, -90]` is not
strictly monotonically decreasing from 90 to −90 (it rises from 0 to 10),
yet `run_inference` accepts it — the run completes (`okB … = true`), the
predictor is invoked and a record is emitted, because line 124 only
asserts `lat[0] == 90 and lat[-1] == -90`. -/
theorem nonmonotone_lat_accepted_cex :
    ¬ strictlyNorthSouth [90, 0, 10, -90] ∧
    okB (run_inference (fun _ _ => [[0, 1]]) (fun _ _ => [[0, 1]]) false []
      (⟨[0, 6], ["c"], [90, 0, 10, -90], [0], [5, 5]⟩ : DataArrayIn ℕ) 1) = true := by
  constructor
  · rintro ⟨hc, -, -⟩
    rw [List.chain'_cons, List.chain'_cons] at hc
    exact absurd hc.2.1 (by norm_num)
  · decide

/-- C4 (amended): the stepper fails before invoking any step — the same
error for every predictor, so no predictor call is made and no record is
emitted — precisely when the latitude *endpoint* check fails
(`lat[0] ≠ 90` or `lat[-1] ≠ -90`, given the timestamp check passes);
interior ordering is never examined. -/
theorem lat_endpoint_check_fails_fast {S : Type}
    (P I : Tensor S → Scalars → Tensor S) (ui : Bool) (names : List String)
    (inp : DataArrayIn S) (N : ℕ) (i h : ℤ) (rest : List ℤ)
    (ht : inp.times.reverse = i :: h :: rest) (hd : i - h = 6)
    (hl : ¬ (inp.lat.head? = some 90 ∧ inp.lat.getLast? = some (-90))) :
    run_inference P I ui names inp N = Except.error "AssertionError: lat" := by
  have hrun : run_inference P I ui names inp N =
      if i - h = 6 then
        if inp.lat.head? = some 90 ∧ inp.lat.getLast? = some (-90) then
          Except.ok (stepTraces P I ui names inp i N 0 [inp.values])
        else Except.error "AssertionError: lat"
      else Except.error "AssertionError: interval" := by
    unfold run_inference
    rw [ht]
  rw [hrun, if_pos hd, if_neg hl]

/-- Witness for C4 (amended) at the concrete input with latitude `[45]`
(endpoints wrong): the run aborts with the latitude assertion. -/
theorem lat_endpoint_check_fails_fast_inst :
    ((⟨[0, 6], ["c"], [45], [0], [5, 5]⟩ : DataArrayIn ℕ).times.reverse
        = 6 :: 0 :: []) ∧
    ((6 : ℤ) - 0 = 6) ∧
    ¬ ((⟨[0, 6], ["c"], [45], [0], [5, 5]⟩ : DataArrayIn ℕ).lat.head? = some 90 ∧
        (⟨[0, 6], ["c"], [45], [0], [5, 5]⟩ : DataArrayIn ℕ).lat.getLast? = some (-90)) ∧
    run_inference (fun _ _ => [[0, 1]]) (fun _ _ => [[0, 1]]) false []
        (⟨[0, 6], ["c"], [45], [0], [5, 5]⟩ : DataArrayIn ℕ) 1
      = Except.error "AssertionError: lat" :=
  ⟨by decide, by decide, by decide,
    lat_endpoint_check_fails_fast (fun _ _ => [[0, 1]]) (fun _ _ => [[0, 1]]) false []
      ⟨[0, 6], ["c"], [45], [0], [5, 5]⟩ 1 6 0 [] (by decide) (by decide) (by decide)⟩

/-! ## C5 — a wrong inter-state interval fails before any step -/

/-- C5: if the two most recent timestamps of the input window are not
exactly 6 hours apart, `run_inference` fails before invoking any step:
the result is the interval assertion error — the same for every
predictor (`P` is universally quantified and unused), so no predictor
call is made and no record is emitted. -/
theorem bad_interval_fails_fast {S : Type}
    (P I : Tensor S → Scalars → Tensor S) (ui : Bool) (names : List String)
    (inp : DataArrayIn S) (N : ℕ) (i h : ℤ) (rest : List ℤ)
    (ht : inp.times.reverse = i :: h :: rest) (hne : i - h ≠ 6) :
    run_inference P I ui names inp N = Except.error "AssertionError: interval" := by
  have hrun : run_inference P I ui names inp N =
      if i - h = 6 then
        if inp.lat.head? = some 90 ∧ inp.lat.getLast? = some (-90) then
          Except.ok (stepTraces P I ui names inp i N 0 [inp.values])
        else Except.error "AssertionError: lat"
      else Except.error "AssertionError: interval" := by
    unfold run_inference
    rw [ht]
  rw [hrun, if_neg hne]

/-- Witness for C5 at the concrete input whose timestamps are 5 hours
apart. -/
theorem bad_interval_fails_fast_inst :
    ((⟨[0, 5], ["c"], [90, -90], [0], [5, 5]⟩ : DataArrayIn ℕ).times.reverse
        = 5 :: 0 :: []) ∧
    ((5 : ℤ) - 0 ≠ 6) ∧
    run_inference (fun _ _ => [[0, 1]]) (fun _ _ => [[0, 1]]) false []
        (⟨[0, 5], ["c"], [90, -90], [0], [5, 5]⟩ : DataArrayIn ℕ) 1
      = Except.error "AssertionError: interval" :=
  ⟨by decide, by decide,
    bad_interval_fails_fast (fun _ _ => [[0, 1]]) (fun _ _ => [[0, 1]]) false []
      ⟨[0, 5], ["c"], [90, -90], [0], [5, 5]⟩ 1 5 0 [] (by decide) (by decide)⟩

/-! ## C8 — coordinates are copied unchanged into every record -/

/-- C8: for every step of every run (any predictor, refiner, flag, fuel,
starting step and window), the `channel`, `lat` and `lon` coordinates of
each emitted record equal those of the original input window: the list
of per-record coordinates is a constant replicate of the input's. -/
theorem records_copy_coordinates {S : Type} (P I : Tensor S → Scalars → Tensor S)
    (ui : Bool) (names : List String) (inp : DataArrayIn S) (t0 : ℤ)
    (fuel step : ℕ) (b : Tensor S) :
    (stepTraces P I ui names inp t0 fuel step b).map (fun s => s.record.channel)
        = List.replicate fuel inp.channel ∧
    (stepTraces P I ui names inp t0 fuel step b).map (fun s => s.record.lat)
        = List.replicate fuel inp.lat ∧
    (stepTraces P I ui names inp t0 fuel step b).map (fun s => s.record.lon)
        = List.replicate fuel inp.lon :=
  ⟨stepTraces_map_channel P I ui names inp t0 fuel step b,
   stepTraces_map_lat P I ui names inp t0 fuel step b,
   stepTraces_map_lon P I ui names inp t0 fuel step b⟩

/-! ## C9 — `save_like` validates nothing -/

/-- C9 counterexample: `save_like` accepts the lead time 5, which is not
`(step_index+1) × 6` for any step index (5 is not a multiple of 6), and
still emits a record labeled `[5]` instead of raising a data-consistency
error — so "lead_time is validated to equal `(step_index+1) ×
base_interval`, any mismatch raises" is false. -/
theorem save_like_accepts_off_grid_lead_cex :
    (save_like [[(0 : ℕ)]] ⟨[0, 6], ["c"], [90, -90], [0], [5, 5]⟩ 5).leadTimes = [5] ∧
    (5 : ℤ) % 6 ≠ 0 := by
  refine ⟨by decide, by decide⟩

/-- C9 (amended): `save_like` performs no validation at all.  For every
output, input and lead time (whether or not the lead time is of the form
`(step_index+1) × 6`), it unconditionally emits a record whose
`channel`/`lat`/`lon` are copied (not compared) from the input, whose
data is the output, and whose lead-time labels are the
`output.shape[1]` values ending exactly at the given lead time. -/
theorem save_like_copies_without_checks {S : Type} (output : Tensor S)
    (inp : DataArrayIn S) (lt : ℤ) (hpos : 0 < shape1 output) :
    (save_like output inp lt).channel = inp.channel ∧
    (save_like output inp lt).lat = inp.lat ∧
    (save_like output inp lt).lon = inp.lon ∧
    (save_like output inp lt).data = output ∧
    (save_like output inp lt).leadTimes.length = shape1 output ∧
    (save_like output inp lt).leadTimes.getLast? = some lt := by
  refine ⟨rfl, rfl, rfl, rfl, by simp [save_like], ?_⟩
  obtain ⟨m, hm⟩ : ∃ m, shape1 output = m + 1 := ⟨shape1 output - 1, by omega⟩
  simp only [save_like, hm, List.range_succ, List.map_append, List.map_cons, List.map_nil]
  rw [List.getLast?_concat]
  congr 1
  push_cast
  ring

/-- Witness for C9 (amended) at a concrete record with the off-grid lead
time 5. -/
theorem save_like_copies_without_checks_inst :
    (0 < shape1 [[(0 : ℕ)]]) ∧
    ((save_like [[(0 : ℕ)]] ⟨[0, 6], ["c"], [90, -90], [0], [5, 5]⟩ 5).channel
        = (⟨[0, 6], ["c"], [90, -90], [0], [5, 5]⟩ : DataArrayIn ℕ).channel) ∧
    ((save_like [[(0 : ℕ)]] ⟨[0, 6], ["c"], [90, -90], [0], [5, 5]⟩ 5).lat
        = (⟨[0, 6], ["c"], [90, -90], [0], [5, 5]⟩ : DataArrayIn ℕ).lat) ∧
    ((save_like [[(0 : ℕ)]] ⟨[0, 6], ["c"], [90, -90], [0], [5, 5]⟩ 5).lon
        = (⟨[0, 6], ["c"], [90, -90], [0], [5, 5]⟩ : DataArrayIn ℕ).lon) ∧
    ((save_like [[(0 : ℕ)]] ⟨[0, 6], ["c"], [90, -90], [0], [5, 5]⟩ 5).data
        = [[(0 : ℕ)]]) ∧
    ((save_like [[(0 : ℕ)]] ⟨[0, 6], ["c"], [90, -90], [0], [5, 5]⟩ 5).leadTimes.length
        = shape1 [[(0 : ℕ)]]) ∧
    ((save_like [[(0 : ℕ)]] ⟨[0, 6], ["c"], [90, -90], [0], [5, 5]⟩ 5).leadTimes.getLast?
        = some 5) :=
  ⟨by decide,
    save_like_copies_without_checks [[(0 : ℕ)]]
      ⟨[0, 6], ["c"], [90, -90], [0], [5, 5]⟩ 5 (by decide)⟩
